import Mathlib

/-!
Shallow embedding of the browser-resident donation-record service module
(the `DonationService` IIFE): a master donations table plus food, clothes
and money sub-tables and a notifications table, all held in a key-value
store (`localStorage`).  Tables are embedded as Lean lists of structures
(insertion order preserved; `unshift` is list `cons`); the non-deterministic
parts of the source — `_genId`, `Date.now`, `new Date().toISOString()` and
the `'TXN-' + Date.now()` transaction reference — are passed in as explicit
string parameters.  JavaScript `null`-able / deletable object fields become
`Option` fields; thrown `RangeError` / authorization `Error`s become an
explicit error sum.  Numeric quantities arrive already parsed
(`parseInt(n, 10) = n` on integers), so they are embedded as `Int`.
-/

namespace DonationService

/-- A master-table row (`dms_donation_records`).  `approved` is the JS
tri-state `null | true | false` (pending / approved / rejected); the audit
fields `approvedAt/approvedBy/rejectedAt/rejectedBy/rejectionReason` are
object properties that may be absent (`delete row.x` in the source), hence
`Option`.  `transactionId` is attached to the in-memory object by
`createPendingMoney` after the row was serialized, so the persisted row can
also carry it as an `Option` (always `none` in storage). -/
structure MasterRecord where
  id : String
  userId : String
  type : String
  createdAt : String
  approved : Option Bool
  donation_status : String
  approvedAt : Option String := none
  approvedBy : Option String := none
  rejectedAt : Option String := none
  rejectedBy : Option String := none
  rejectionReason : Option String := none
  transactionId : Option String := none
deriving DecidableEq, Repr

/-- A `dms_food_donations` row: `{ id, donation_id, rice_qty, veg_qty }`. -/
structure FoodRow where
  id : String
  donation_id : String
  rice_qty : Int
  veg_qty : Int
deriving DecidableEq, Repr

/-- A `dms_clothes_donations` row: `{ id, donation_id, target_age }`. -/
structure ClothesRow where
  id : String
  donation_id : String
  target_age : Int
deriving DecidableEq, Repr

/-- A `dms_money_donations` row:
`{ id, donation_id, transaction_id, qr_payload, status }`. -/
structure MoneyRow where
  id : String
  donation_id : String
  transaction_id : String
  qr_payload : String
  status : Bool
deriving DecidableEq, Repr

/-- A `dms_notifications` row (shape from `addNotification`). -/
structure NotifRow where
  id : String
  userId : String
  donationId : String
  ntype : String
  message : String
  reason : Option String
  createdAt : String
  read : Bool
deriving DecidableEq, Repr

/-- The five persisted tables of the service module. -/
structure Store where
  records : List MasterRecord
  food : List FoodRow
  clothes : List ClothesRow
  money : List MoneyRow
  notifs : List NotifRow
deriving DecidableEq, Repr

/-- The empty storage state (every `localStorage` key absent ⇒ `_loadTable`
returns `[]`). -/
def emptyStore : Store :=
  { records := [], food := [], clothes := [], money := [], notifs := [] }

/-- The `dms_session` object, as read by the authorization guards:
only `userId` and `role` are consulted by the service module. -/
structure Session where
  userId : String
  role : String
deriving DecidableEq, Repr

/-- Errors thrown by the service module: `RangeError` for an invalid
apparel age, plain `Error` for a missing/non-admin session. -/
inductive JsError where
  | rangeError (msg : String)
  | authError (msg : String)
deriving DecidableEq, Repr

/-- `VALID_AGES = [10, 19, 20, 30, 45]`. -/
def VALID_AGES : List Int := [10, 19, 20, 30, 45]

/-- `getRecordById`: first master row with the given `id`, or `null`. -/
def getRecordById (s : Store) (id : String) : Option MasterRecord :=
  s.records.find? (fun r => r.id == id)

/-- `getFoodByDonationId`: first food row with the given FK, or `null`. -/
def getFoodByDonationId (s : Store) (donationId : String) : Option FoodRow :=
  s.food.find? (fun r => r.donation_id == donationId)

/-- `getClothesByDonationId`. -/
def getClothesByDonationId (s : Store) (donationId : String) : Option ClothesRow :=
  s.clothes.find? (fun r => r.donation_id == donationId)

/-- `getMoneyByDonationId`. -/
def getMoneyByDonationId (s : Store) (donationId : String) : Option MoneyRow :=
  s.money.find? (fun r => r.donation_id == donationId)

/-- JS pattern `rows.find(p); row.x = v; _saveTable(rows)`:
mutate the FIRST row satisfying `p` in place, keep every other row. -/
def updateFirst (p : α → Bool) (f : α → α) : List α → List α
  | [] => []
  | x :: xs => if p x then f x :: xs else x :: updateFirst p f xs

/-- `_verifyCommit(donationId, subTableKey)`: the master row exists and
some sub-table row carries the FK.  The sub-table is passed as its list of
`donation_id` values. -/
def verifyCommit (s : Store) (donationId : String) (subDonationIds : List String) : Bool :=
  (getRecordById s donationId).isSome && subDonationIds.contains donationId

/-- The fresh pending master row built by all three creation paths. -/
def mkPendingMaster (id userId ty createdAt : String) : MasterRecord :=
  { id := id, userId := userId, type := ty, createdAt := createdAt,
    approved := none, donation_status := "pending" }

/-- Result of a synchronous creation path: post-write storage state, the
value returned to the caller, whether `_verifyCommit` held, whether the
one-shot `dms_thanks` flag was written and whether the `donationSuccess`
event was dispatched. -/
structure SaveResult where
  state : Store
  result : Except JsError MasterRecord
  verified : Bool
  thanksFlag : Bool
  eventDispatched : Bool

/-- `saveFoodRecord(userId, rice, vegetables)`.  `recId`/`subId`/`createdAt`
stand for `_genId('dr')`, `_genId('fd')` and the ISO timestamp.  The spec's
storage substrate admits write failures (commit verification exists to
detect a partial write), so each `_saveTable` call carries a Bool saying
whether the write took effect; `true, true` is normal operation. -/
def saveFoodRecord (s : Store) (userId : String) (rice vegetables : Int)
    (recId subId createdAt : String) (masterWriteOk foodWriteOk : Bool) : SaveResult :=
  let record := mkPendingMaster recId userId "food" createdAt
  let s1 := if masterWriteOk then { s with records := record :: s.records } else s
  let foodRow : FoodRow :=
    { id := subId, donation_id := recId, rice_qty := rice, veg_qty := vegetables }
  let s2 := if foodWriteOk then { s1 with food := foodRow :: s1.food } else s1
  let ok := verifyCommit s2 recId (s2.food.map (fun r => r.donation_id))
  { state := s2, result := .ok record, verified := ok,
    thanksFlag := ok, eventDispatched := true }

/-- `saveApparelRecord(userId, ageGroup)`: throws a `RangeError` before any
write when the age is not in `VALID_AGES`; otherwise inserts the master row
and the clothes row, then verifies, flags and dispatches exactly as the
food path does. -/
def saveApparelRecord (s : Store) (userId : String) (ageGroup : Int)
    (recId subId createdAt : String) (masterWriteOk clothesWriteOk : Bool) : SaveResult :=
  if !(VALID_AGES.contains ageGroup) then
    { state := s,
      result := .error (.rangeError
        "target_age must be one of 10, 19, 20, 30, 45"),
      verified := false, thanksFlag := false, eventDispatched := false }
  else
    let record := mkPendingMaster recId userId "apparel" createdAt
    let s1 := if masterWriteOk then { s with records := record :: s.records } else s
    let clothesRow : ClothesRow :=
      { id := subId, donation_id := recId, target_age := ageGroup }
    let s2 := if clothesWriteOk then { s1 with clothes := clothesRow :: s1.clothes } else s1
    let ok := verifyCommit s2 recId (s2.clothes.map (fun r => r.donation_id))
    { state := s2, result := .ok record, verified := ok,
      thanksFlag := ok, eventDispatched := true }

/-- `createPendingMoney(userId, qrPayload)`: inserts the master row and a
money row with `status = false`; no commit verification, no flag and no
event.  The returned object carries `transactionId` attached AFTER the row
was persisted, so the stored master row has `transactionId = none` while
the returned one has `some txnId`.  Returns `(state, returned record)`. -/
def createPendingMoney (s : Store) (userId qrPayload : String)
    (recId subId createdAt txnId : String) : Store × MasterRecord :=
  let record := mkPendingMaster recId userId "money" createdAt
  let s1 := { s with records := record :: s.records }
  let moneyRow : MoneyRow :=
    { id := subId, donation_id := recId, transaction_id := txnId,
      qr_payload := qrPayload, status := false }
  let s2 := { s1 with money := moneyRow :: s1.money }
  (s2, { record with transactionId := some txnId })

/-- Result of `completeMoney`. -/
structure CompleteResult where
  state : Store
  result : Option MasterRecord
  verified : Bool
  thanksFlag : Bool
  eventDispatched : Bool

/-- `completeMoney(donationId)`: flips the first matching money row's
`status` to `true` (saving only when a row was found), then looks the
master row up; when it exists, verifies, maybe flags, and dispatches
`donationSuccess` unconditionally.  Returns the master row or `null`. -/
def completeMoney (s : Store) (donationId : String) : CompleteResult :=
  let s1 :=
    match s.money.find? (fun r => r.donation_id == donationId) with
    | some _ =>
        let money2 := updateFirst (fun r => r.donation_id == donationId)
          (fun r => { r with status := true }) s.money
        { s with money := money2 }
    | none => s
  match getRecordById s1 donationId with
  | none =>
      { state := s1, result := none, verified := false,
        thanksFlag := false, eventDispatched := false }
  | some rec =>
      let ok := verifyCommit s1 donationId (s1.money.map (fun r => r.donation_id))
      { state := s1, result := some rec, verified := ok,
        thanksFlag := ok, eventDispatched := true }

/-- `cancelPendingMoney(donationId)`: filters the master table by `id` and
the money table by `donation_id`; food, clothes and notifications are not
touched. -/
def cancelPendingMoney (s : Store) (donationId : String) : Store :=
  { s with
    records := s.records.filter (fun r => r.id != donationId),
    money := s.money.filter (fun r => r.donation_id != donationId) }

/-- The row update `approveRecord` performs on the found master row:
`approved = true`, audit stamps, status mirror, and `delete row.rejectedAt;
delete row.rejectedBy` — the source does NOT delete `rejectionReason`. -/
def applyApprove (adminId now : String) (r : MasterRecord) : MasterRecord :=
  { r with
    approved := some true, approvedAt := some now,
    approvedBy := some adminId, donation_status := "approved",
    rejectedAt := none, rejectedBy := none }

/-- `approveRecord(donationId)`: authorization guard on `dms_session`
(missing or non-admin session throws before any read or write), then
find-and-mutate the master row, returning `null` when the id is unknown. -/
def approveRecord (session : Option Session) (s : Store) (donationId now : String) :
    Store × Except JsError (Option MasterRecord) :=
  match session with
  | none => (s, .error (.authError "approveRecord: administrator session required."))
  | some sess =>
    if sess.role != "admin" then
      (s, .error (.authError "approveRecord: administrator session required."))
    else
      match s.records.find? (fun r => r.id == donationId) with
      | none => (s, .ok none)
      | some row =>
          let records2 := updateFirst (fun r => r.id == donationId)
            (applyApprove sess.userId now) s.records
          ({ s with records := records2 },
           .ok (some (applyApprove sess.userId now row)))

/-- The row update `rejectRecord` performs: `approved = false`, rejection
audit stamps, `rejectionReason = (reason || '').trim()`, status mirror, and
`delete row.approvedAt; delete row.approvedBy`. -/
def applyReject (adminId now reason : String) (r : MasterRecord) : MasterRecord :=
  { r with
    approved := some false, rejectedAt := some now,
    rejectedBy := some adminId, rejectionReason := some reason.trim,
    donation_status := "rejected", approvedAt := none, approvedBy := none }

/-- `rejectRecord(donationId, reason)`: same guard and find-and-mutate
shape as `approveRecord`. -/
def rejectRecord (session : Option Session) (s : Store) (donationId reason now : String) :
    Store × Except JsError (Option MasterRecord) :=
  match session with
  | none => (s, .error (.authError "rejectRecord: administrator session required."))
  | some sess =>
    if sess.role != "admin" then
      (s, .error (.authError "rejectRecord: administrator session required."))
    else
      match s.records.find? (fun r => r.id == donationId) with
      | none => (s, .ok none)
      | some row =>
          let records2 := updateFirst (fun r => r.id == donationId)
            (applyReject sess.userId now reason) s.records
          ({ s with records := records2 },
           .ok (some (applyReject sess.userId now reason row)))

/-- `deleteRecord(donationId)`: filters the master table and all three
sub-tables.  The source performs NO session check here. -/
def deleteRecord (s : Store) (donationId : String) : Store :=
  { s with
    records := s.records.filter (fun r => r.id != donationId),
    food := s.food.filter (fun r => r.donation_id != donationId),
    clothes := s.clothes.filter (fun r => r.donation_id != donationId),
    money := s.money.filter (fun r => r.donation_id != donationId) }

/-- `updateFoodRecord(donationId, rice, veg)`: find-and-mutate the first
food row by FK; `null` when none matches.  No session check in the source. -/
def updateFoodRecord (s : Store) (donationId : String) (rice veg : Int) :
    Store × Option FoodRow :=
  match s.food.find? (fun r => r.donation_id == donationId) with
  | none => (s, none)
  | some row =>
      let row2 := { row with rice_qty := rice, veg_qty := veg }
      let food2 := updateFirst (fun r => r.donation_id == donationId)
        (fun r => { r with rice_qty := rice, veg_qty := veg }) s.food
      ({ s with food := food2 }, some row2)

/-- `updateApparelRecord(donationId, targetAge)`: throws a `RangeError`
before the table is even loaded when the age is invalid; otherwise
find-and-mutate by FK.  No session check in the source. -/
def updateApparelRecord (s : Store) (donationId : String) (targetAge : Int) :
    Store × Except JsError (Option ClothesRow) :=
  if !(VALID_AGES.contains targetAge) then
    (s, .error (.rangeError "target_age must be one of 10, 19, 20, 30, 45"))
  else
    match s.clothes.find? (fun r => r.donation_id == donationId) with
    | none => (s, .ok none)
    | some row =>
        let row2 := { row with target_age := targetAge }
        let clothes2 := updateFirst (fun r => r.donation_id == donationId)
          (fun r => { r with target_age := targetAge }) s.clothes
        ({ s with clothes := clothes2 }, .ok (some row2))

/-- `updateMoneyRecord(donationId, transactionId)`: find-and-mutate the
first money row by FK.  No session check in the source. -/
def updateMoneyRecord (s : Store) (donationId transactionId : String) :
    Store × Option MoneyRow :=
  match s.money.find? (fun r => r.donation_id == donationId) with
  | none => (s, none)
  | some row =>
      let row2 := { row with transaction_id := transactionId }
      let money2 := updateFirst (fun r => r.donation_id == donationId)
        (fun r => { r with transaction_id := transactionId }) s.money
      ({ s with money := money2 }, some row2)

/-- JS `clothes[age] = (clothes[age] || 0) + 1` on the age→count object,
embedded as an association list (first occurrence of a key is its value;
a new key is appended). -/
def bumpAge (m : List (Int × Nat)) (age : Int) : List (Int × Nat) :=
  match m.find? (fun p => p.1 == age) with
  | some _ => m.map (fun p => if p.1 == age then (p.1, p.2 + 1) else p)
  | none => m ++ [(age, 1)]

/-- The object returned by `getApprovedInventory`. -/
structure Inventory where
  rice_kg : Int
  veg_kg : Int
  clothes : List (Int × Nat)
  money_count : Nat
  total : Nat
deriving DecidableEq, Repr

/-- One `records.forEach` step of `getApprovedInventory`. -/
def inventoryStep (s : Store) (acc : Inventory) (r : MasterRecord) : Inventory :=
  if r.type == "food" then
    match getFoodByDonationId s r.id with
    | some sub =>
        { acc with
          rice_kg := acc.rice_kg + sub.rice_qty,
          veg_kg := acc.veg_kg + sub.veg_qty }
    | none => acc
  else if r.type == "apparel" then
    match getClothesByDonationId s r.id with
    | some sub => { acc with clothes := bumpAge acc.clothes sub.target_age }
    | none => acc
  else if r.type == "money" then
    { acc with money_count := acc.money_count + 1 }
  else acc

/-- `getApprovedInventory()`: filter `approved === true`, accumulate per
type joining the sub-tables, `total` is the number of approved records. -/
def getApprovedInventory (s : Store) : Inventory :=
  let approvedRecords := s.records.filter (fun r => r.approved == some true)
  let acc0 : Inventory :=
    { rice_kg := 0, veg_kg := 0, clothes := [], money_count := 0,
      total := approvedRecords.length }
  approvedRecords.foldl (inventoryStep s) acc0

/-- `true` exactly on the authorization failure branch of the admin ops. -/
def isAuthError : Except JsError α → Bool
  | .error (.authError _) => true
  | _ => false

/-- `true` exactly on a thrown `RangeError`. -/
def isRangeError : Except JsError α → Bool
  | .error (.rangeError _) => true
  | _ => false

/-- Referential integrity of the sub-tables as stated by the data model:
every sub-row's `donation_id` references an existing master row. -/
def subRefsOk (s : Store) : Prop :=
  (∀ f ∈ s.food, ∃ r ∈ s.records, r.id = f.donation_id) ∧
  (∀ c ∈ s.clothes, ∃ r ∈ s.records, r.id = c.donation_id) ∧
  (∀ m ∈ s.money, ∃ r ∈ s.records, r.id = m.donation_id)

/-! Helper lemmas about the find-and-mutate pattern shared by the admin and
update operations. -/

/-- `find?` after an in-place first-match update: when the update preserves
the predicate, the row found afterwards is the updated row. -/
theorem find?_updateFirst (p : α → Bool) (f : α → α) (l : List α)
    (hpf : ∀ a, p (f a) = p a) :
    (updateFirst p f l).find? p = (l.find? p).map f := by
  induction l with
  | nil => rfl
  | cons x xs ih =>
    by_cases hx : p x = true
    · rw [updateFirst, if_pos hx, List.find?_cons_of_pos _ ((hpf x).trans hx),
        List.find?_cons_of_pos _ hx, Option.map_some']
    · have hx' : ¬ p x := by simpa using hx
      rw [updateFirst, if_neg hx, List.find?_cons_of_neg _ hx',
        List.find?_cons_of_neg _ hx', ih]

/-- With an admin session and a master row matching the id, `approveRecord`
rewrites the first matching row with `applyApprove` and returns it. -/
theorem approveRecord_admin_found (sess : Session) (hrole : sess.role = "admin")
    (s : Store) (dId now : String) (row : MasterRecord)
    (hfind : s.records.find? (fun r => r.id == dId) = some row) :
    approveRecord (some sess) s dId now =
      ({ s with records := (updateFirst (fun r => r.id == dId)
          (applyApprove sess.userId now) s.records) },
       .ok (some (applyApprove sess.userId now row))) := by
  simp [approveRecord, hrole, hfind]

/-- With an admin session and a master row matching the id, `rejectRecord`
rewrites the first matching row with `applyReject` and returns it. -/
theorem rejectRecord_admin_found (sess : Session) (hrole : sess.role = "admin")
    (s : Store) (dId reason now : String) (row : MasterRecord)
    (hfind : s.records.find? (fun r => r.id == dId) = some row) :
    rejectRecord (some sess) s dId reason now =
      ({ s with records := (updateFirst (fun r => r.id == dId)
          (applyReject sess.userId now reason) s.records) },
       .ok (some (applyReject sess.userId now reason row))) := by
  simp [rejectRecord, hrole, hfind]

/-! Concrete fixtures used by witnesses and counterexamples. -/

/-- Fixture master row: an approved food donation. -/
def invFoodMaster : MasterRecord :=
  { id := "d_f", userId := "u1", type := "food", createdAt := "t1",
    approved := some true, donation_status := "approved" }

/-- Fixture food sub-row: rice 5 kg, vegetables 3 kg. -/
def invFoodRow : FoodRow :=
  { id := "f1", donation_id := "d_f", rice_qty := 5, veg_qty := 3 }

/-- Fixture master row: an approved apparel donation. -/
def invApparelMaster : MasterRecord :=
  { id := "d_a", userId := "u1", type := "apparel", createdAt := "t2",
    approved := some true, donation_status := "approved" }

/-- Fixture clothes sub-row: target age 20. -/
def invApparelRow : ClothesRow :=
  { id := "c1", donation_id := "d_a", target_age := 20 }

/-- Fixture master row: a pending (not approved) money donation. -/
def invMoneyMaster : MasterRecord :=
  { id := "d_m", userId := "u2", type := "money", createdAt := "t3",
    approved := none, donation_status := "pending" }

/-- Fixture money sub-row (captured, not confirmed). -/
def invMoneyRow : MoneyRow :=
  { id := "m1", donation_id := "d_m", transaction_id := "TXN-1",
    qr_payload := "qr", status := false }

/-- Fixture store: one approved food donation (rice 5, veg 3), one approved
apparel donation (age 20) and one pending money donation. -/
def invStore : Store :=
  { records := [invFoodMaster, invApparelMaster, invMoneyMaster],
    food := [invFoodRow], clothes := [invApparelRow],
    money := [invMoneyRow], notifs := [] }

/-- Fixture master row: a single pending food donation. -/
def pendRec : MasterRecord :=
  { id := "d1", userId := "u1", type := "food", createdAt := "t0",
    approved := none, donation_status := "pending" }

/-- Fixture store: the pending food donation and its sub-row. -/
def pendStore : Store :=
  { records := [pendRec],
    food := [{ id := "f1", donation_id := "d1", rice_qty := 2, veg_qty := 1 }],
    clothes := [], money := [], notifs := [] }

/-! Claim theorems. -/

/-- C4: for every age outside the enumerated set 10, 19, 20, 30, 45,
`saveApparelRecord` fails with a range error leaving the whole store (hence
the master table and the apparel sub-table) unchanged, and
`updateApparelRecord` on any donation id likewise fails with a range error
leaving the store unchanged; ages inside the set are accepted by both
(creation returns the record, update never raises a range error). -/
theorem C4_apparel_age_validation (s : Store) (userId : String) (age : Int)
    (recId subId createdAt : String) (mOk cOk : Bool) (dId : String) :
    (VALID_AGES.contains age = false →
      (saveApparelRecord s userId age recId subId createdAt mOk cOk).state = s ∧
      isRangeError (saveApparelRecord s userId age recId subId createdAt mOk cOk).result
        = true ∧
      (updateApparelRecord s dId age).1 = s ∧
      isRangeError (updateApparelRecord s dId age).2 = true) ∧
    (VALID_AGES.contains age = true →
      (saveApparelRecord s userId age recId subId createdAt mOk cOk).result
        = .ok (mkPendingMaster recId userId "apparel" createdAt) ∧
      isRangeError (updateApparelRecord s dId age).2 = false) := by
  constructor
  · intro h
    have hmem : ¬ (age ∈ VALID_AGES) := by simpa using h
    refine ⟨?_, ?_, ?_, ?_⟩ <;>
      simp [saveApparelRecord, updateApparelRecord, hmem, isRangeError]
  · intro h
    have hmem : age ∈ VALID_AGES := by simpa using h
    constructor
    · simp [saveApparelRecord, hmem]
    · rcases hfind : s.clothes.find? (fun r => r.donation_id == dId) with _ | row <;>
        simp [updateApparelRecord, hmem, hfind, isRangeError]

/-- C4 witness: age 11 is rejected by both operations without mutation, and
age 20 is accepted by both, on the concrete fixture store. -/
theorem C4_apparel_age_validation_witness :
    (VALID_AGES.contains 11 = false ∧
      (saveApparelRecord invStore "u1" 11 "d9" "c9" "t9" true true).state = invStore ∧
      isRangeError (saveApparelRecord invStore "u1" 11 "d9" "c9" "t9" true true).result
        = true ∧
      (updateApparelRecord invStore "d_a" 11).1 = invStore ∧
      isRangeError (updateApparelRecord invStore "d_a" 11).2 = true) ∧
    (VALID_AGES.contains 20 = true ∧
      (saveApparelRecord invStore "u1" 20 "d9" "c9" "t9" true true).result
        = .ok (mkPendingMaster "d9" "u1" "apparel" "t9") ∧
      isRangeError (updateApparelRecord invStore "d_a" 20).2 = false) :=
  ⟨⟨by decide,
    (C4_apparel_age_validation invStore "u1" 11 "d9" "c9" "t9" true true "d_a").1 (by decide)⟩,
   ⟨by decide,
    (C4_apparel_age_validation invStore "u1" 20 "d9" "c9" "t9" true true "d_a").2 (by decide)⟩⟩

/-- C6: `completeMoney` on a donation id that matches no existing record
(no master row with that id and no money sub-row referencing it) returns the
not-found `null` sentinel, sets no flag, raises no event, and leaves the
whole store unchanged. -/
theorem C6_completeMoney_unknown (s : Store) (dId : String)
    (hmaster : getRecordById s dId = none)
    (hmoney : getMoneyByDonationId s dId = none) :
    completeMoney s dId =
      { state := s, result := none, verified := false,
        thanksFlag := false, eventDispatched := false } := by
  have h1 : s.money.find? (fun r => r.donation_id == dId) = none := hmoney
  have h2 : s.records.find? (fun r => r.id == dId) = none := hmaster
  simp [completeMoney, getRecordById, h1, h2]

/-- C6 witness: the unknown id d9 on the concrete fixture store. -/
theorem C6_completeMoney_unknown_witness :
    getRecordById invStore "d9" = none ∧ getMoneyByDonationId invStore "d9" = none ∧
    completeMoney invStore "d9" =
      { state := invStore, result := none, verified := false,
        thanksFlag := false, eventDispatched := false } :=
  ⟨by decide, by decide, C6_completeMoney_unknown invStore "d9" (by decide) (by decide)⟩

/-- C7: after `deleteRecord donationId`, the master table has no row with
that id and no sub-table (food, clothes or money) has a row referencing it;
deleting the same id again is a no-op on the whole store (idempotence —
cascades that match nothing change nothing and never error). -/
theorem C7_delete_cascade_idempotent (s : Store) (dId : String) :
    (deleteRecord s dId).records.all (fun r => r.id != dId) = true ∧
    (deleteRecord s dId).food.all (fun f => f.donation_id != dId) = true ∧
    (deleteRecord s dId).clothes.all (fun c => c.donation_id != dId) = true ∧
    (deleteRecord s dId).money.all (fun m => m.donation_id != dId) = true ∧
    deleteRecord (deleteRecord s dId) dId = deleteRecord s dId := by
  refine ⟨?_, ?_, ?_, ?_, ?_⟩ <;>
    simp [deleteRecord, List.all_eq_true, List.mem_filter, List.filter_filter]

/-- C8: on the fixture holding exactly one approved food donation (rice 5,
veg 3), one approved apparel donation (age 20) and one pending money
donation, `getApprovedInventory` returns rice 5, veg 3, the single clothes
bucket age 20 ↦ 1, money count 0 and grand total 2. -/
theorem C8_inventory_fixture :
    getApprovedInventory invStore =
      { rice_kg := 5, veg_kg := 3, clothes := [(20, 1)],
        money_count := 0, total := 2 } := by
  rfl

/-- C10: `createPendingMoney` attaches the generated transaction id only to
the returned in-memory object: the returned record carries it, while
`getRecordById` on the returned id yields the persisted master row, which is
the pending master row with no transaction id. -/
theorem C10_transactionId_not_persisted (s : Store)
    (userId qr recId subId createdAt txnId : String) :
    (createPendingMoney s userId qr recId subId createdAt txnId).2.transactionId
      = some txnId ∧
    getRecordById (createPendingMoney s userId qr recId subId createdAt txnId).1
        (createPendingMoney s userId qr recId subId createdAt txnId).2.id
      = some (mkPendingMaster recId userId "money" createdAt) ∧
    (mkPendingMaster recId userId "money" createdAt).transactionId = none := by
  refine ⟨rfl, ?_, rfl⟩
  show (mkPendingMaster recId userId "money" createdAt :: s.records).find?
      (fun r => r.id == recId) = some (mkPendingMaster recId userId "money" createdAt)
  rw [List.find?_cons_of_pos]
  simp [mkPendingMaster]

/-- C5: creating a pending money donation and then cancelling it on the id
it returned restores the whole store — in particular the master table and
the money sub-table — exactly, provided the generated id is fresh (the
source generates an opaque unique id, embedded here as the hypotheses that
no master row carries it and no money row references it). -/
theorem C5_money_cancel_roundtrip (s : Store)
    (userId qr recId subId createdAt txnId : String)
    (hfreshMaster : ∀ r ∈ s.records, r.id ≠ recId)
    (hfreshMoney : ∀ m ∈ s.money, m.donation_id ≠ recId) :
    cancelPendingMoney (createPendingMoney s userId qr recId subId createdAt txnId).1
      (createPendingMoney s userId qr recId subId createdAt txnId).2.id = s := by
  have h1 : (mkPendingMaster recId userId "money" createdAt :: s.records).filter
      (fun r => r.id != recId) = s.records := by
    rw [List.filter_cons_of_neg]
    · exact List.filter_eq_self.mpr fun a ha => bne_iff_ne.mpr (hfreshMaster a ha)
    · simp [mkPendingMaster]
  have h2 : ((⟨subId, recId, txnId, qr, false⟩ : MoneyRow) :: s.money).filter
      (fun r => r.donation_id != recId) = s.money := by
    rw [List.filter_cons_of_neg]
    · exact List.filter_eq_self.mpr fun a ha => bne_iff_ne.mpr (hfreshMoney a ha)
    · simp
  show ({ records := ((mkPendingMaster recId userId "money" createdAt ::
                        s.records).filter (fun r => r.id != recId)),
          food := s.food,
          clothes := s.clothes,
          money := (((⟨subId, recId, txnId, qr, false⟩ : MoneyRow) ::
                      s.money).filter (fun r => r.donation_id != recId)),
          notifs := s.notifs } : Store) = s
  rw [h1, h2]

/-- C5 witness: the round trip on the concrete fixture store with the fresh
id d9 restores the store exactly. -/
theorem C5_money_cancel_roundtrip_witness :
    (∀ r ∈ invStore.records, r.id ≠ "d9") ∧ (∀ m ∈ invStore.money, m.donation_id ≠ "d9") ∧
    cancelPendingMoney (createPendingMoney invStore "u9" "qr9" "d9" "m9" "t9" "TXN-9").1
      (createPendingMoney invStore "u9" "qr9" "d9" "m9" "t9" "TXN-9").2.id = invStore :=
  ⟨by decide, by decide,
   C5_money_cancel_roundtrip invStore "u9" "qr9" "d9" "m9" "t9" "TXN-9"
     (by decide) (by decide)⟩

/-- C9: `cancelPendingMoney` removes the master row for any id regardless of
its type but removes matching rows only from the money sub-table: called
with the id of an existing food donation it leaves the food and clothes
sub-tables untouched, removes the master row, and thereby violates the
referential-integrity invariant (the food sub-row is orphaned). -/
theorem C9_cancel_orphans_subrecord (s : Store) (m : MasterRecord) (f : FoodRow)
    (hm : m ∈ s.records) (hty : m.type = "food") (hf : f ∈ s.food)
    (hid : f.donation_id = m.id) :
    (cancelPendingMoney s m.id).food = s.food ∧
    (cancelPendingMoney s m.id).clothes = s.clothes ∧
    getRecordById (cancelPendingMoney s m.id) m.id = none ∧
    ¬ subRefsOk (cancelPendingMoney s m.id) := by
  refine ⟨rfl, rfl, ?_, ?_⟩
  · rw [getRecordById, List.find?_eq_none]
    intro x hx
    have hxne := (List.mem_filter.mp hx).2
    simpa using hxne
  · rintro ⟨hfood, -, -⟩
    obtain ⟨r, hr, hrid⟩ := hfood f hf
    have h2 : (r.id != m.id) = true := (List.mem_filter.mp hr).2
    rw [hid] at hrid
    rw [hrid] at h2
    simp at h2

/-- C9 witness: cancelling with the id of the fixture food donation breaks
referential integrity on the concrete fixture store. -/
theorem C9_cancel_orphans_subrecord_witness :
    invFoodMaster ∈ invStore.records ∧ invFoodMaster.type = "food" ∧
    invFoodRow ∈ invStore.food ∧ invFoodRow.donation_id = invFoodMaster.id ∧
    ¬ subRefsOk (cancelPendingMoney invStore invFoodMaster.id) :=
  ⟨by decide, rfl, by decide, rfl,
   (C9_cancel_orphans_subrecord invStore invFoodMaster invFoodRow
     (by decide) rfl (by decide) rfl).2.2.2⟩

/-- C1 counterexample: the claim requires every administrative operation to
re-check the active session and fail without mutation when it is absent or
non-admin, but `deleteRecord`, `updateFoodRecord`, `updateApparelRecord` and
`updateMoneyRecord` read no session at all in the source — called in a state
with no active session they still mutate their tables, as these concrete
calls show. -/
theorem C1_admin_guard_counterexample :
    deleteRecord invStore "d_f" ≠ invStore ∧
    (updateFoodRecord invStore "d_f" 7 8).1 ≠ invStore ∧
    (updateApparelRecord invStore "d_a" 30).1 ≠ invStore ∧
    (updateMoneyRecord invStore "d_m" "TXN-2").1 ≠ invStore := by
  refine ⟨?_, ?_, ?_, ?_⟩ <;> decide

/-- C1 amended: among the administrative operations, only `approveRecord`
and `rejectRecord` re-check at call time that the active session carries the
administrator role; for every call to those two with an absent or non-admin
session the operation throws an authorization error and leaves the whole
store (all five tables) unchanged.  The other four administrative operations
perform no session check (see the counterexample). -/
theorem C1_admin_guard_amended (session : Option Session) (s : Store)
    (dId now reason : String)
    (h : ∀ ss, session = some ss → ss.role ≠ "admin") :
    (approveRecord session s dId now).1 = s ∧
    isAuthError (approveRecord session s dId now).2 = true ∧
    (rejectRecord session s dId reason now).1 = s ∧
    isAuthError (rejectRecord session s dId reason now).2 = true := by
  cases session with
  | none => exact ⟨rfl, rfl, rfl, rfl⟩
  | some ss =>
    have hr : (ss.role != "admin") = true := bne_iff_ne.mpr (h ss rfl)
    refine ⟨?_, ?_, ?_, ?_⟩ <;> simp [approveRecord, rejectRecord, hr, isAuthError]

/-- C1 witness: with no active session, approve and reject fail with an
authorization error and leave the concrete fixture store unchanged. -/
theorem C1_admin_guard_amended_witness :
    (∀ ss : Session, (none : Option Session) = some ss → ss.role ≠ "admin") ∧
    ((approveRecord none pendStore "d1" "t1").1 = pendStore ∧
     isAuthError (approveRecord none pendStore "d1" "t1").2 = true ∧
     (rejectRecord none pendStore "d1" "bad" "t1").1 = pendStore ∧
     isAuthError (rejectRecord none pendStore "d1" "bad" "t1").2 = true) :=
  ⟨(fun _ h => nomatch h),
   C1_admin_guard_amended none pendStore "d1" "t1" "bad" (fun _ h => nomatch h)⟩

/-- C2 counterexample: on the concrete pending fixture, reject (reason
"bad") followed by approve leaves `rejectionReason` still populated —
`approveRecord` deletes `rejectedAt` and `rejectedBy` but not
`rejectionReason`, so the rejection audit trail is NOT fully cleared as the
claim states. -/
theorem C2_audit_counterexample :
    (getRecordById (approveRecord (some { userId := "admin1", role := "admin" })
        (rejectRecord (some { userId := "admin1", role := "admin" })
          pendStore "d1" "bad" "t1").1 "d1" "t2").1 "d1").map
      (fun r => r.approved) = some (some true) ∧
    (getRecordById (approveRecord (some { userId := "admin1", role := "admin" })
        (rejectRecord (some { userId := "admin1", role := "admin" })
          pendStore "d1" "bad" "t1").1 "d1" "t2").1 "d1").map
      (fun r => r.rejectedAt) = some none ∧
    (getRecordById (approveRecord (some { userId := "admin1", role := "admin" })
        (rejectRecord (some { userId := "admin1", role := "admin" })
          pendStore "d1" "bad" "t1").1 "d1" "t2").1 "d1").map
      (fun r => r.rejectionReason) ≠ some none := by
  refine ⟨?_, ?_, ?_⟩ <;> decide

/-- C2 amended: for a donation id present in the master table, approve then
reject leaves exactly the rejection audit fields (rejectedAt, rejectedBy,
rejectionReason) populated with both approval fields absent; reject then
approve re-populates the approval audit fields and clears rejectedAt and
rejectedBy, but rejectionReason persists (the source never deletes it on
re-approval) — the audit trails are not fully mutually exclusive. -/
theorem C2_audit_amended (s : Store) (dId aid reason t1 t2 : String)
    (row : MasterRecord)
    (hfind : s.records.find? (fun r => r.id == dId) = some row) :
    (getRecordById (rejectRecord (some { userId := aid, role := "admin" })
        (approveRecord (some { userId := aid, role := "admin" }) s dId t1).1
        dId reason t2).1 dId
      = some (applyReject aid t2 reason (applyApprove aid t1 row))) ∧
    (applyReject aid t2 reason (applyApprove aid t1 row)).rejectedAt = some t2 ∧
    (applyReject aid t2 reason (applyApprove aid t1 row)).rejectedBy = some aid ∧
    (applyReject aid t2 reason (applyApprove aid t1 row)).rejectionReason
      = some reason.trim ∧
    (applyReject aid t2 reason (applyApprove aid t1 row)).approvedAt = none ∧
    (applyReject aid t2 reason (applyApprove aid t1 row)).approvedBy = none ∧
    (getRecordById (approveRecord (some { userId := aid, role := "admin" })
        (rejectRecord (some { userId := aid, role := "admin" }) s dId reason t1).1
        dId t2).1 dId
      = some (applyApprove aid t2 (applyReject aid t1 reason row))) ∧
    (applyApprove aid t2 (applyReject aid t1 reason row)).approvedAt = some t2 ∧
    (applyApprove aid t2 (applyReject aid t1 reason row)).approvedBy = some aid ∧
    (applyApprove aid t2 (applyReject aid t1 reason row)).rejectedAt = none ∧
    (applyApprove aid t2 (applyReject aid t1 reason row)).rejectedBy = none ∧
    (applyApprove aid t2 (applyReject aid t1 reason row)).rejectionReason
      = some reason.trim := by
  have hA := approveRecord_admin_found { userId := aid, role := "admin" } rfl
    s dId t1 row hfind
  have hA1 : (approveRecord (some { userId := aid, role := "admin" }) s dId t1).1
      = { s with records := (updateFirst (fun r => r.id == dId)
          (applyApprove aid t1) s.records) } := by
    rw [hA]
  have hfindA : ({ s with records := (updateFirst (fun r => r.id == dId)
      (applyApprove aid t1) s.records) } : Store).records.find?
      (fun r => r.id == dId) = some (applyApprove aid t1 row) := by
    show (updateFirst (fun r => r.id == dId) (applyApprove aid t1)
      s.records).find? (fun r => r.id == dId) = _
    rw [find?_updateFirst (fun r => r.id == dId) (applyApprove aid t1)
      s.records (fun a => rfl), hfind, Option.map_some']
  have hR := rejectRecord_admin_found { userId := aid, role := "admin" } rfl
    { s with records := (updateFirst (fun r => r.id == dId)
        (applyApprove aid t1) s.records) }
    dId reason t2 (applyApprove aid t1 row) hfindA
  have hRb := rejectRecord_admin_found { userId := aid, role := "admin" } rfl
    s dId reason t1 row hfind
  have hRb1 : (rejectRecord (some { userId := aid, role := "admin" })
      s dId reason t1).1
      = { s with records := (updateFirst (fun r => r.id == dId)
          (applyReject aid t1 reason) s.records) } := by
    rw [hRb]
  have hfindR : ({ s with records := (updateFirst (fun r => r.id == dId)
      (applyReject aid t1 reason) s.records) } : Store).records.find?
      (fun r => r.id == dId) = some (applyReject aid t1 reason row) := by
    show (updateFirst (fun r => r.id == dId) (applyReject aid t1 reason)
      s.records).find? (fun r => r.id == dId) = _
    rw [find?_updateFirst (fun r => r.id == dId) (applyReject aid t1 reason)
      s.records (fun a => rfl), hfind, Option.map_some']
  have hAb := approveRecord_admin_found { userId := aid, role := "admin" } rfl
    { s with records := (updateFirst (fun r => r.id == dId)
        (applyReject aid t1 reason) s.records) }
    dId t2 (applyReject aid t1 reason row) hfindR
  refine ⟨?_, rfl, rfl, rfl, rfl, rfl, ?_, rfl, rfl, rfl, rfl, rfl⟩
  · rw [hA1]
    have hR1 : (rejectRecord (some { userId := aid, role := "admin" })
        { s with records := (updateFirst (fun r => r.id == dId)
            (applyApprove aid t1) s.records) } dId reason t2).1
        = { s with records := (updateFirst (fun r => r.id == dId)
            (applyReject aid t2 reason) (updateFirst (fun r => r.id == dId)
              (applyApprove aid t1) s.records)) } := by
      rw [hR]
    rw [hR1]
    show (updateFirst (fun r => r.id == dId) (applyReject aid t2 reason)
        (updateFirst (fun r => r.id == dId) (applyApprove aid t1)
          s.records)).find? (fun r => r.id == dId) = _
    rw [find?_updateFirst (fun r => r.id == dId) (applyReject aid t2 reason)
        (updateFirst (fun r => r.id == dId) (applyApprove aid t1) s.records)
        (fun a => rfl),
      find?_updateFirst (fun r => r.id == dId) (applyApprove aid t1)
        s.records (fun a => rfl), hfind]
    rfl
  · rw [hRb1]
    have hAb1 : (approveRecord (some { userId := aid, role := "admin" })
        { s with records := (updateFirst (fun r => r.id == dId)
            (applyReject aid t1 reason) s.records) } dId t2).1
        = { s with records := (updateFirst (fun r => r.id == dId)
            (applyApprove aid t2) (updateFirst (fun r => r.id == dId)
              (applyReject aid t1 reason) s.records)) } := by
      rw [hAb]
    rw [hAb1]
    show (updateFirst (fun r => r.id == dId) (applyApprove aid t2)
        (updateFirst (fun r => r.id == dId) (applyReject aid t1 reason)
          s.records)).find? (fun r => r.id == dId) = _
    rw [find?_updateFirst (fun r => r.id == dId) (applyApprove aid t2)
        (updateFirst (fun r => r.id == dId) (applyReject aid t1 reason) s.records)
        (fun a => rfl),
      find?_updateFirst (fun r => r.id == dId) (applyReject aid t1 reason)
        s.records (fun a => rfl), hfind]
    rfl

/-- C2 witness: the amended audit behaviour at the concrete pending
fixture, exhibiting the final record of approve-after-reject with its
persisting rejection reason. -/
theorem C2_audit_amended_witness :
    pendStore.records.find? (fun r => r.id == "d1") = some pendRec ∧
    getRecordById (approveRecord (some { userId := "admin1", role := "admin" })
        (rejectRecord (some { userId := "admin1", role := "admin" })
          pendStore "d1" "bad" "t1").1 "d1" "t2").1 "d1"
      = some (applyApprove "admin1" "t2"
          (applyReject "admin1" "t1" "bad" pendRec)) :=
  ⟨rfl, (C2_audit_amended pendStore "d1" "admin1" "bad" "t1" "t2" pendRec
    rfl).2.2.2.2.2.2.1⟩

/-- The valid-age branch of `saveApparelRecord`, spelled out. -/
theorem saveApparelRecord_valid (s : Store) (userId : String) (age : Int)
    (recId subId createdAt : String) (mOk cOk : Bool)
    (hage : age ∈ VALID_AGES) :
    saveApparelRecord s userId age recId subId createdAt mOk cOk =
      (let record := mkPendingMaster recId userId "apparel" createdAt
       let s1 := if mOk then { s with records := record :: s.records } else s
       let s2 := if cOk then { s1 with clothes :=
         (⟨subId, recId, age⟩ : ClothesRow) :: s1.clothes } else s1
       let ok := verifyCommit s2 recId (s2.clothes.map (fun r => r.donation_id))
       { state := s2, result := .ok record, verified := ok,
         thanksFlag := ok, eventDispatched := true }) := by
  simp [saveApparelRecord, hage]

/-- C3 counterexample: a food creation whose sub-table write is dropped, so
commit verification fails — the thanks flag is suppressed, yet the
`donationSuccess` event IS dispatched (the source calls `_dispatchSuccess`
unconditionally), refuting the claim that no event is raised. -/
theorem C3_commit_failure_counterexample :
    (saveFoodRecord emptyStore "u1" 5 3 "d1" "f1" "t0" true false).verified
      = false ∧
    (saveFoodRecord emptyStore "u1" 5 3 "d1" "f1" "t0" true false).thanksFlag
      = false ∧
    (saveFoodRecord emptyStore "u1" 5 3 "d1" "f1" "t0" true false).eventDispatched
      = true := by
  refine ⟨?_, ?_, ?_⟩ <;> decide

/-- C3 amended: for every `saveFoodRecord` call whose commit verification
fails, the one-shot thanks flag is not set but the donation-success event is
still raised, and the caller still receives the created master record;
likewise for `saveApparelRecord` on a valid age. -/
theorem C3_commit_failure_amended (s : Store) (userId : String)
    (rice veg age : Int) (recId subId createdAt : String) (mOk subOk : Bool) :
    ((saveFoodRecord s userId rice veg recId subId createdAt mOk subOk).verified
        = false →
      (saveFoodRecord s userId rice veg recId subId createdAt mOk subOk).thanksFlag
        = false ∧
      (saveFoodRecord s userId rice veg recId subId createdAt mOk subOk).eventDispatched
        = true ∧
      (saveFoodRecord s userId rice veg recId subId createdAt mOk subOk).result
        = .ok (mkPendingMaster recId userId "food" createdAt)) ∧
    (age ∈ VALID_AGES →
      (saveApparelRecord s userId age recId subId createdAt mOk subOk).verified
        = false →
      (saveApparelRecord s userId age recId subId createdAt mOk subOk).thanksFlag
        = false ∧
      (saveApparelRecord s userId age recId subId createdAt mOk subOk).eventDispatched
        = true ∧
      (saveApparelRecord s userId age recId subId createdAt mOk subOk).result
        = .ok (mkPendingMaster recId userId "apparel" createdAt)) := by
  constructor
  · intro hv
    exact ⟨hv, rfl, rfl⟩
  · intro hage hv
    rw [saveApparelRecord_valid s userId age recId subId createdAt mOk subOk hage]
      at hv ⊢
    exact ⟨hv, rfl, rfl⟩

/-- C3 witness: the concrete failing food creation from the counterexample
input, routed through the amended theorem. -/
theorem C3_commit_failure_amended_witness :
    (saveFoodRecord emptyStore "u2" 4 2 "d2" "f2" "t0" true false).verified
      = false ∧
    ((saveFoodRecord emptyStore "u2" 4 2 "d2" "f2" "t0" true false).thanksFlag
        = false ∧
     (saveFoodRecord emptyStore "u2" 4 2 "d2" "f2" "t0" true false).eventDispatched
        = true ∧
     (saveFoodRecord emptyStore "u2" 4 2 "d2" "f2" "t0" true false).result
        = .ok (mkPendingMaster "d2" "u2" "food" "t0")) :=
  ⟨by decide,
   (C3_commit_failure_amended emptyStore "u2" 4 2 20 "d2" "f2" "t0" true
     false).1 (by decide)⟩

end DonationService
